import Mathlib

/-!
Verification of the acad-service grade-index program (src/acad-service/main.py)
against its natural-language specification. The Python source is shallowly
embedded: the database tables, the SQL inner join, the single-pass reduction of
`get_ips_mahasiswa`, the bearer-token gate `verify_token`, and the connection
context manager `get_db_connection` become executable Lean definitions; external
outcomes (authority HTTP status, transport failures, driver errors) are passed
in as explicit data.
-/

/-- One row of the `krs` table: (student id, course code, letter grade). -/
structure KrsRow where
  nim : String
  kode_mk : String
  nilai : String
deriving DecidableEq, Repr

/-- One row of the `mata_kuliah` table: (course code, course name, credit hours).
Credit hours are an SQL integer, embedded as ℤ. -/
structure MataKuliahRow where
  kode_mk : String
  nama_mk : String
  sks : ℤ
deriving DecidableEq, Repr

/-- One row of the `bobot_nilai` table: (letter grade, numeric weight).
The weight is an SQL numeric, embedded as ℚ. -/
structure BobotRow where
  nilai : String
  bobot : ℚ
deriving DecidableEq, Repr

/-- The three relations read by the service (main.py lines 118-128). -/
structure Database where
  krs : List KrsRow
  mata_kuliah : List MataKuliahRow
  bobot_nilai : List BobotRow
deriving DecidableEq, Repr

/-- One row of the join result, as selected in main.py lines 119-123:
`m.nama_mk, m.sks, k.nilai as nilai_huruf, b.bobot as nilai_angka`. -/
structure Row where
  nama_mk : String
  sks : ℤ
  nilai_huruf : String
  nilai_angka : ℚ
deriving DecidableEq, Repr

/-- The SQL query of main.py lines 118-128: inner join
`krs JOIN mata_kuliah ON kode_mk JOIN bobot_nilai ON nilai WHERE krs.nim = nim`,
embedded as a nested-loop join (rows with no matching course or weight are
dropped, as an inner join does). -/
def queryRows (db : Database) (nim : String) : List Row :=
  (db.krs.filter (fun k => k.nim == nim)).flatMap (fun k =>
    (db.mata_kuliah.filter (fun m => m.kode_mk == k.kode_mk)).flatMap (fun m =>
      (db.bobot_nilai.filter (fun b => b.nilai == k.nilai)).map (fun b =>
        { nama_mk := m.nama_mk, sks := m.sks,
          nilai_huruf := k.nilai, nilai_angka := b.bobot })))

/-- An HTTP response of the endpoint: either the success payload of main.py
lines 154-159 (`nim`, `total_sks`, rounded `ips`, `detail_transkrip`) or an
`HTTPException(status_code, detail)`. -/
inductive Response where
  | ok (nim : String) (total_sks : ℤ) (ips : ℚ) (detail_transkrip : List Row)
  | httpError (statusCode : ℕ) (detail : String)
deriving DecidableEq, Repr

/-- Outcome of the database fetch of main.py lines 130-131: either the joined
rows, or a raised driver error carrying its message text (`str(e)`). -/
inductive DbOutcome where
  | rows (rs : List Row)
  | failure (errText : String)
deriving DecidableEq, Repr

/-- Round-half-to-even on ℚ, the semantics of Python `round` at a tie. -/
def roundHalfEven (q : ℚ) : ℤ :=
  let f : ℤ := ⌊q⌋
  let r : ℚ := q - f
  if r < 1/2 then f
  else if 1/2 < r then f + 1
  else if f % 2 = 0 then f else f + 1

/-- `round(ips, 2)` of main.py line 157: round to 2 decimal places. -/
def round2 (q : ℚ) : ℚ := (roundHalfEven (q * 100) : ℚ) / 100

/-- One iteration of the loop of main.py lines 142-149, acting on the state
`(total_sks, total_poin, detail_nilai)`:
`total_sks += sks; total_poin += sks * bobot; detail_nilai.append(row)`. -/
def reduceStep (acc : ℤ × ℚ × List Row) (row : Row) : ℤ × ℚ × List Row :=
  (acc.1 + row.sks, acc.2.1 + (row.sks : ℚ) * row.nilai_angka, acc.2.2 ++ [row])

/-- The single-pass reduction of main.py lines 137-149, starting from
`total_sks = 0, total_poin = 0, detail_nilai = []`. -/
def reduceRows (rows : List Row) : ℤ × ℚ × List Row :=
  rows.foldl reduceStep (0, 0, [])

/-- main.py lines 133-159: `if not rows: raise HTTPException(404, ...)`, else
reduce, compute `ips = total_poin / total_sks if total_sks > 0 else 0.0`, and
return the payload with `round(ips, 2)`. -/
def computeFromRows (nim : String) (rows : List Row) : Response :=
  if rows.isEmpty then Response.httpError 404 "Data nilai mahasiswa tidak ditemukan"
  else
    let acc := reduceRows rows
    let total_sks := acc.1
    let total_poin := acc.2.1
    let detail_nilai := acc.2.2
    let ips : ℚ := if 0 < total_sks then total_poin / (total_sks : ℚ) else 0
    Response.ok nim total_sks (round2 ips) detail_nilai

/-- The endpoint body of main.py lines 113-165 after token acceptance: on
fetched rows it computes the result (an `HTTPException` raised inside, such as
the 404, is re-raised unchanged by line 163-164); on a driver error `e` the
handler of line 165 raises `HTTPException(500, str(e))`. -/
def get_ips_mahasiswa (nim : String) (dbo : DbOutcome) : Response :=
  match dbo with
  | DbOutcome.rows rs => computeFromRows nim rs
  | DbOutcome.failure msg => Response.httpError 500 msg

/-- Outcome of the `requests.post` call to the authentication authority
(main.py lines 89-92): an HTTP status code, or a `RequestException` at the
transport level carrying its message text. -/
inductive AuthOutcome where
  | status (code : ℕ)
  | transportError (errText : String)
deriving DecidableEq, Repr

/-- Result of `verify_token`: the accepted token, or a raised `HTTPException`. -/
inductive TokenResult where
  | ok (token : String)
  | error (statusCode : ℕ) (detail : String)
deriving DecidableEq, Repr

/-- External calls a request can make: the authority round trip and the
database query. -/
inductive Effect where
  | authCall
  | dbQuery
deriving DecidableEq, Repr

/-- `verify_token` of main.py lines 77-109, paired with the list of external
calls it performs. `if not token` (line 80) is the empty-string test; otherwise
the authority is called once: non-200 gives 401 "Token invalid or expired"
(lines 94-99, an `HTTPException`, not caught by the `RequestException` handler),
a transport error gives 500 "Auth Service unreachable: str(e)" (lines 101-106),
and 200 returns the token (line 109). -/
def verify_token (token : String) (auth : AuthOutcome) : TokenResult × List Effect :=
  if token = "" then (TokenResult.error 401 "Token missing", [])
  else
    match auth with
    | AuthOutcome.status code =>
        if code ≠ 200 then (TokenResult.error 401 "Token invalid or expired", [Effect.authCall])
        else (TokenResult.ok token, [Effect.authCall])
    | AuthOutcome.transportError msg =>
        (TokenResult.error 500 ("Auth Service unreachable: " ++ msg), [Effect.authCall])

/-- The whole protected endpoint: `verify_token` runs as a dependency before
the body of `get_ips_mahasiswa` (main.py line 112); if it raises, the body
never runs and the database is never queried. -/
def handle_nilai (nim token : String) (auth : AuthOutcome) (dbo : DbOutcome) :
    Response × List Effect :=
  match verify_token token auth with
  | (TokenResult.error c d, effs) => (Response.httpError c d, effs)
  | (TokenResult.ok _, effs) => (get_ips_mahasiswa nim dbo, effs ++ [Effect.dbQuery])

/-- The first digit of an HTTP status code (4xx vs 5xx). -/
def statusClass (code : ℕ) : ℕ := code / 100

/-- The endpoint as a state transformer on the database. The only SQL the
source executes is the SELECT of lines 118-128, so the database contents are
returned unchanged. -/
def run_get_ips (db : Database) (nim : String) : Response × Database :=
  (get_ips_mahasiswa nim (DbOutcome.rows (queryRows db nim)), db)

/-- Actions the connection scope of main.py lines 46-56 performs. -/
inductive DbAction where
  | connect
  | commit
  | rollback
  | close
deriving DecidableEq, Repr

/-- Outcome of the work enclosed in the `with get_db_connection()` scope:
it returns normally or raises an exception (carrying its message). -/
inductive BodyOutcome where
  | success
  | excep (msg : String)
deriving DecidableEq, Repr

/-- `get_db_connection` of main.py lines 46-56: connect, yield to the body,
commit when the body returns, rollback and re-raise when it raises, and close
in `finally` on every path. Returns the action trace and the re-raised
exception, if any. -/
def get_db_connection (body : BodyOutcome) : List DbAction × Option String :=
  match body with
  | BodyOutcome.success => ([DbAction.connect, DbAction.commit, DbAction.close], none)
  | BodyOutcome.excep msg => ([DbAction.connect, DbAction.rollback, DbAction.close], some msg)

/-- Sample joined row set with a single row. -/
def sampleRows1 : List Row :=
  [{ nama_mk := "Algoritma", sks := 3, nilai_huruf := "A", nilai_angka := 4 }]

/-- The worked example of the spec: rows (3 credits, weight 4.0) and
(2 credits, weight 3.0). -/
def rowsC2 : List Row :=
  [{ nama_mk := "Basis Data", sks := 3, nilai_huruf := "A", nilai_angka := 4 },
   { nama_mk := "Jaringan", sks := 2, nilai_huruf := "B", nilai_angka := 3 }]

/-- A database whose only enrollment row carries a letter grade with no entry
in the grade-weight table, so the inner join for that student is empty. -/
def dbC3 : Database :=
  { krs := [{ nim := "130", kode_mk := "IF101", nilai := "T" }],
    mata_kuliah := [{ kode_mk := "IF101", nama_mk := "Algoritma", sks := 3 }],
    bobot_nilai := [{ nilai := "A", bobot := 4 }] }

lemma reduceRows_go (rows : List Row) (a : ℤ) (b : ℚ) (c : List Row) :
    rows.foldl reduceStep (a, b, c) =
      (a + (rows.map Row.sks).sum,
       b + (rows.map (fun r => (r.sks : ℚ) * r.nilai_angka)).sum,
       c ++ rows) := by
  induction rows generalizing a b c with
  | nil => simp
  | cons r rs ih =>
      simp only [List.foldl_cons, List.map_cons, List.sum_cons, reduceStep, ih]
      refine Prod.ext (by ring) (Prod.ext (by ring) ?_)
      simp

lemma reduceRows_eq (rows : List Row) :
    reduceRows rows =
      ((rows.map Row.sks).sum,
       (rows.map (fun r => (r.sks : ℚ) * r.nilai_angka)).sum,
       rows) := by
  simpa using reduceRows_go rows 0 0 []

lemma computeFromRows_cons (nim : String) (r : Row) (rs : List Row) :
    computeFromRows nim (r :: rs) =
      Response.ok nim (reduceRows (r :: rs)).1
        (round2 (if 0 < (reduceRows (r :: rs)).1 then
          (reduceRows (r :: rs)).2.1 / ((reduceRows (r :: rs)).1 : ℚ) else 0))
        (reduceRows (r :: rs)).2.2 := by
  simp [computeFromRows]

/-- C1: for every non-empty joined row set, the single-pass reduction yields
total_sks equal to the sum of credit hours, total_poin equal to the sum of
credit hours times grade weight per row, ips equal to total_poin / total_sks
when total_sks > 0 and 0.0 otherwise, and the response's detail_transkrip list
holding every joined row verbatim in join order. -/
theorem C1_single_pass_reduction (nim : String) (rows : List Row) (h : rows ≠ []) :
    (reduceRows rows).1 = (rows.map Row.sks).sum ∧
    (reduceRows rows).2.1 = (rows.map (fun r => (r.sks : ℚ) * r.nilai_angka)).sum ∧
    (reduceRows rows).2.2 = rows ∧
    computeFromRows nim rows =
      Response.ok nim ((rows.map Row.sks).sum)
        (round2 (if 0 < (rows.map Row.sks).sum then
          (rows.map (fun r => (r.sks : ℚ) * r.nilai_angka)).sum /
            (((rows.map Row.sks).sum : ℤ) : ℚ)
          else 0))
        rows := by
  obtain ⟨r, rs, rfl⟩ := List.exists_cons_of_ne_nil h
  refine ⟨by simp [reduceRows_eq], by simp [reduceRows_eq], by simp [reduceRows_eq], ?_⟩
  rw [computeFromRows_cons, reduceRows_eq]

theorem C1_witness :
    sampleRows1 ≠ [] ∧
    ((reduceRows sampleRows1).1 = (sampleRows1.map Row.sks).sum ∧
     (reduceRows sampleRows1).2.1 =
       (sampleRows1.map (fun r => (r.sks : ℚ) * r.nilai_angka)).sum ∧
     (reduceRows sampleRows1).2.2 = sampleRows1 ∧
     computeFromRows "130" sampleRows1 =
       Response.ok "130" ((sampleRows1.map Row.sks).sum)
         (round2 (if 0 < (sampleRows1.map Row.sks).sum then
           (sampleRows1.map (fun r => (r.sks : ℚ) * r.nilai_angka)).sum /
             (((sampleRows1.map Row.sks).sum : ℤ) : ℚ)
           else 0))
         sampleRows1) :=
  ⟨by decide, C1_single_pass_reduction "130" sampleRows1 (by decide)⟩

/-- C2: for the joined rows [(3 credits, weight 4.0), (2 credits, weight 3.0)]
the reduction yields total_sks = 5 and total_poin = 18, the raw index is
18/5 = 3.6, and the response reports the rounded index 3.60. -/
theorem C2_worked_example :
    reduceRows rowsC2 = (5, 18, rowsC2) ∧
    (18 : ℚ) / 5 = 3.6 ∧
    round2 ((18 : ℚ) / 5) = 3.60 ∧
    computeFromRows "12345" rowsC2 = Response.ok "12345" 5 3.60 rowsC2 := by
  have h1 : reduceRows rowsC2 = (5, 18, rowsC2) := by
    rw [reduceRows_eq]
    simp only [rowsC2, List.map_cons, List.map_nil, List.sum_cons, List.sum_nil]
    norm_num
  have h2 : round2 ((18 : ℚ) / 5) = 3.60 := by
    have h : (18 : ℚ) / 5 * 100 = 360 := by norm_num
    rw [round2, h]
    norm_num [roundHalfEven]
  refine ⟨h1, by norm_num, h2, ?_⟩
  simp only [computeFromRows, rowsC2, List.isEmpty_cons, if_false, Bool.false_eq_true]
  rw [← rowsC2, h1]
  norm_num [h2]

/-- C3: whenever the enrollment join yields zero rows — whether the student is
absent from krs or none of their rows join to a grade-weight entry — the
operation fails with the 404 NotFound error and never returns a success
payload (in particular, no zero-credit success). -/
theorem C3_empty_join_not_found (db : Database) (nim : String)
    (h : queryRows db nim = []) :
    get_ips_mahasiswa nim (DbOutcome.rows (queryRows db nim)) =
      Response.httpError 404 "Data nilai mahasiswa tidak ditemukan" ∧
    ∀ t i d, get_ips_mahasiswa nim (DbOutcome.rows (queryRows db nim)) ≠
      Response.ok nim t i d := by
  rw [h]
  exact ⟨rfl, fun t i d hx => by simp [get_ips_mahasiswa, computeFromRows] at hx⟩

theorem C3_witness :
    queryRows dbC3 "130" = [] ∧
    (get_ips_mahasiswa "130" (DbOutcome.rows (queryRows dbC3 "130")) =
       Response.httpError 404 "Data nilai mahasiswa tidak ditemukan" ∧
     ∀ t i d, get_ips_mahasiswa "130" (DbOutcome.rows (queryRows dbC3 "130")) ≠
       Response.ok "130" t i d) :=
  ⟨by decide, C3_empty_join_not_found dbC3 "130" (by decide)⟩

/-- C4: a request that supplies no bearer token is answered with the 401
Unauthorized "Token missing" error, and its effect trace is empty: neither the
authentication authority nor the database is contacted. -/
theorem C4_missing_token (nim : String) (auth : AuthOutcome) (dbo : DbOutcome) :
    handle_nilai nim "" auth dbo =
      (Response.httpError 401 "Token missing", ([] : List Effect)) := by
  simp [handle_nilai, verify_token]

/-- C5: a non-empty token that the authority answers with a non-200 status is
rejected with the 401 Unauthorized "Token invalid or expired" error — a detail
distinct from the missing-token message — and the effect trace holds only the
authority call: the database is not contacted. -/
theorem C5_rejected_token (nim token : String) (code : ℕ) (dbo : DbOutcome)
    (h1 : token ≠ "") (h2 : code ≠ 200) :
    handle_nilai nim token (AuthOutcome.status code) dbo =
      (Response.httpError 401 "Token invalid or expired", [Effect.authCall]) ∧
    ("Token invalid or expired" : String) ≠ "Token missing" ∧
    Effect.dbQuery ∉ [Effect.authCall] := by
  refine ⟨?_, by decide, by decide⟩
  simp [handle_nilai, verify_token, h1, h2]

theorem C5_witness :
    ("tok" : String) ≠ "" ∧ (403 : ℕ) ≠ 200 ∧
    (handle_nilai "130" "tok" (AuthOutcome.status 403) (DbOutcome.rows []) =
       (Response.httpError 401 "Token invalid or expired", [Effect.authCall]) ∧
     ("Token invalid or expired" : String) ≠ "Token missing" ∧
     Effect.dbQuery ∉ [Effect.authCall]) :=
  ⟨by decide, by decide,
   C5_rejected_token "130" "tok" 403 (DbOutcome.rows []) (by decide) (by decide)⟩

/-- C6: when the authority call fails at the transport level, the response is
the 500 dependency-failure error whose detail names the authority ("Auth
Service unreachable: ..."), its status class (5xx) differs from the 401 (4xx)
used for token rejection, and the database is not contacted. -/
theorem C6_authority_unreachable (nim token msg : String) (dbo : DbOutcome)
    (h : token ≠ "") :
    handle_nilai nim token (AuthOutcome.transportError msg) dbo =
      (Response.httpError 500 ("Auth Service unreachable: " ++ msg),
       [Effect.authCall]) ∧
    statusClass 500 ≠ statusClass 401 ∧
    Effect.dbQuery ∉ [Effect.authCall] := by
  refine ⟨?_, by decide, by decide⟩
  simp [handle_nilai, verify_token, h]

theorem C6_witness :
    ("tok2" : String) ≠ "" ∧
    (handle_nilai "130" "tok2" (AuthOutcome.transportError "connection refused")
        (DbOutcome.rows []) =
       (Response.httpError 500 ("Auth Service unreachable: " ++ "connection refused"),
        [Effect.authCall]) ∧
     statusClass 500 ≠ statusClass 401 ∧
     Effect.dbQuery ∉ [Effect.authCall]) :=
  ⟨by decide,
   C6_authority_unreachable "130" "tok2" "connection refused" (DbOutcome.rows [])
     (by decide)⟩

/-- C7 counterexample: the claim says the Internal error's user-visible detail
is a generic message that never contains the raw driver error text, but
main.py line 165 raises `HTTPException(500, detail=str(e))`: at the concrete
driver error "could not connect to server: Connection refused" the response
detail is exactly that raw text, and the detail varies with the driver
message rather than being one generic string. -/
theorem C7_counterexample :
    get_ips_mahasiswa "130"
        (DbOutcome.failure "could not connect to server: Connection refused") =
      Response.httpError 500 "could not connect to server: Connection refused" ∧
    get_ips_mahasiswa "130" (DbOutcome.failure "err1") ≠
      get_ips_mahasiswa "130" (DbOutcome.failure "err2") := by
  exact ⟨rfl, by simp [get_ips_mahasiswa]⟩

/-- C7 amended: any unexpected failure while querying or reducing surfaces as
an Internal (500) error, but its user-visible detail is the stringified
exception itself — the raw driver error text is exposed, not hidden behind a
generic message. -/
theorem C7_amended_internal_error (nim msg : String) :
    get_ips_mahasiswa nim (DbOutcome.failure msg) = Response.httpError 500 msg :=
  rfl

/-- C8: the connection scope commits exactly when the enclosed work succeeds,
rolls back exactly when the work raises, re-raises exactly what was raised,
and closes the connection as the last action on every exit path. -/
theorem C8_connection_scope (b : BodyOutcome) :
    (DbAction.commit ∈ (get_db_connection b).1 ↔ b = BodyOutcome.success) ∧
    (DbAction.rollback ∈ (get_db_connection b).1 ↔ b ≠ BodyOutcome.success) ∧
    (get_db_connection b).1.getLast? = some DbAction.close ∧
    ((get_db_connection b).2 = none ↔ b = BodyOutcome.success) ∧
    (∀ msg, (get_db_connection b).2 = some msg ↔ b = BodyOutcome.excep msg) := by
  cases b with
  | success => refine ⟨by decide, by decide, by decide, by decide, fun msg => by simp [get_db_connection]⟩
  | excep m =>
      refine ⟨by simp [get_db_connection], by simp [get_db_connection],
              by simp [get_db_connection], by simp [get_db_connection],
              fun msg => by simp [get_db_connection]⟩

/-- C9: the grade-index operation is a deterministic, read-only function of the
student id and the database contents: it leaves the database unchanged, and a
second call against the state left by the first returns the identical result. -/
theorem C9_idempotent_read_only (db : Database) (nim : String) :
    (run_get_ips db nim).2 = db ∧
    (run_get_ips ((run_get_ips db nim).2) nim).1 = (run_get_ips db nim).1 :=
  ⟨rfl, rfl⟩

/-- C10: for every non-empty joined row set whose credit-hour entries are all
positive, the accumulated total_sks is strictly positive, so `total_sks > 0`
holds at the division and the result is computed through
`total_poin / total_sks` — the 0.0 fallback branch is never taken. -/
theorem C10_fallback_unreachable (rows : List Row) (h1 : rows ≠ [])
    (h2 : ∀ r ∈ rows, 0 < r.sks) :
    0 < (reduceRows rows).1 ∧
    ∀ nim, computeFromRows nim rows =
      Response.ok nim (reduceRows rows).1
        (round2 ((reduceRows rows).2.1 / (((reduceRows rows).1 : ℤ) : ℚ)))
        (reduceRows rows).2.2 := by
  have hpos : 0 < (rows.map Row.sks).sum := by
    refine List.sum_pos _ ?_ (by simpa using h1)
    intro x hx
    obtain ⟨r, hr, rfl⟩ := List.mem_map.mp hx
    exact h2 r hr
  have hpos' : 0 < (reduceRows rows).1 := by rw [reduceRows_eq]; exact hpos
  refine ⟨hpos', fun nim => ?_⟩
  obtain ⟨r, rs, rfl⟩ := List.exists_cons_of_ne_nil h1
  rw [computeFromRows_cons, if_pos hpos']

theorem C10_witness :
    sampleRows1 ≠ [] ∧ (∀ r ∈ sampleRows1, 0 < r.sks) ∧
    (0 < (reduceRows sampleRows1).1 ∧
     ∀ nim, computeFromRows nim sampleRows1 =
       Response.ok nim (reduceRows sampleRows1).1
         (round2 ((reduceRows sampleRows1).2.1 /
           (((reduceRows sampleRows1).1 : ℤ) : ℚ)))
         (reduceRows sampleRows1).2.2) :=
  ⟨by decide, by decide,
   C10_fallback_unreachable sampleRows1 (by decide) (by decide)⟩
